import Mathlib

/-!
Verification development for the tvm-gcs-dlacc job pipeline.

Shallow embedding of the repository's core modules:
- `src/dlacc/utils.py` (JSONConfig / JSONOutput over a JSON dictionary),
- `src/dlacc/ansor_engine.py` (AnsorEngine: tuning, record renaming, compile),
- `src/dlacc/optimum.py` (Optimum dispatch and GraphModuleWrapper),
- `src/app/main.py` (the `run` orchestrator with its two exception boundaries).

Python dictionaries are modelled as insertion-ordered association lists,
mutation as functional update, and the external TVM / storage calls as an
explicit `World` of possible outcomes; each pipeline run produces a trace of
observable events (saves, notifications, uploads, engine calls).
-/

/-- A JSON value as stored in the job config / report dictionaries. -/
inductive JVal where
  | vInt : Int → JVal
  | vStr : String → JVal
  | vBool : Bool → JVal
  | vObj : List (String × JVal) → JVal

/-- A Python dict with string keys, in insertion order. -/
abbrev Dict := List (String × JVal)

/-- `d[k]` lookup returning the first binding of `k`. -/
def dictLookup (d : Dict) (k : String) : Option JVal :=
  match d with
  | [] => none
  | (k2, v) :: rest => if k2 = k then some v else dictLookup rest k

/-- `d[k] = v` assignment: replace the existing binding in place, else append
(Python dicts keep insertion order and update in place). -/
def dictSet (d : Dict) (k : String) (v : JVal) : Dict :=
  match d with
  | [] => [(k, v)]
  | (k2, v2) :: rest => if k2 = k then (k2, v) :: rest else (k2, v2) :: dictSet rest k v



/-- Python `==` between a value and a string literal: only a `str` can equal a
string, anything else compares unequal (no exception). -/
def jEqStr (v : JVal) (s : String) : Bool :=
  match v with
  | .vStr t => t == s
  | _ => false

/-- Python `!=` between a value and a string literal. -/
def jNeStr (v : JVal) (s : String) : Bool :=
  match v with
  | .vStr t => !(t == s)
  | _ => true

/-- Python `==` between a value and an int literal (statuses are always ints
on the paths modelled here). -/
def jEqInt (v : JVal) (n : Int) : Bool :=
  match v with
  | .vInt m => m == n
  | _ => false

/-- Python truthiness of a value, as used by `if config["need_benchmark"]:`. -/
def truthy (v : JVal) : Bool :=
  match v with
  | .vInt n => !(n == 0)
  | .vStr s => !(s == "")
  | .vBool b => b
  | .vObj l => !l.isEmpty

/-- Python `str(...)` rendering as used for `str(self.target)` and
`str(out_json["status"])`. The dict rendering is a placeholder: no claim ever
renders a non-scalar value. -/
def jvalRender (v : JVal) : String :=
  match v with
  | .vInt n => toString n
  | .vStr s => s
  | .vBool b => if b then "True" else "False"
  | .vObj _ => "dict"

/-! ## GraphModuleWrapper (src/dlacc/optimum.py)

`GraphModuleWrapper.__call__` binds the inputs, runs the module, reads the
declared number of outputs and builds `{"output_i": get_output(i)}` in module
output order. A compiled graph module is modelled as its declared output count
plus its input/output behaviour: `run inputs i` is the value of output `i`
after executing on `inputs`. -/

/-- A compiled TVM graph module, modelled by its declared output count and its
execution behaviour (`set_input` + `run` + `get_output i` collapsed into the
pure function `run`). -/
structure GraphModule (A : Type) where
  numOutputs : Nat
  run : List (String × A) → Nat → A

/-- `GraphModuleWrapper.__call__`: executes the module on `inputs` and returns
the dictionary of synthesized output names in module output order. -/
def gmwCall {A : Type} (m : GraphModule A) (inputs : List (String × A)) :
    List (String × A) :=
  (List.range m.numOutputs).map (fun i => ("output_" ++ toString i, m.run inputs i))

/-! ## Aliasing of the config dictionary (src/dlacc/utils.py)

`JSONOutput.__init__` executes `self.meta = json_config.meta`: the report holds
a reference to the very same dict object the config holds. To state the
aliasing claim we use a small heap of dict objects addressed by references;
`JSONConfig` and `JSONOutput` each hold a reference into that heap. -/

abbrev Ref := Nat

abbrev PyHeap := List (Ref × Dict)

/-- Dereference a dict object in the heap. -/
def heapGet (h : PyHeap) (r : Ref) : Option Dict :=
  match h with
  | [] => none
  | (r2, d) :: rest => if r2 = r then some d else heapGet rest r

/-- Overwrite the dict object at `r` (first binding). -/
def heapSet (h : PyHeap) (r : Ref) (d : Dict) : PyHeap :=
  match h with
  | [] => []
  | (r2, d2) :: rest => if r2 = r then (r2, d) :: rest else (r2, d2) :: heapSet rest r d


/-- `JSONConfig` after `load`: holds a reference to its parsed `meta` dict. -/
structure PyJSONConfig where
  metaRef : Ref

/-- `JSONOutput`: holds a reference to its `meta` dict. -/
structure PyJSONOutput where
  metaRef : Ref

/-- `JSONOutput.__init__(self, json_config)`: `self.meta = json_config.meta` —
the report's reference is the config's reference, no copy is made. -/
def PyJSONOutput.ofConfig (c : PyJSONConfig) : PyJSONOutput :=
  ⟨c.metaRef⟩

/-- `JSONOutput.__setitem__`: `self.meta[key] = value`, mutating the heap
object the report references. -/
def PyJSONOutput.setItem (h : PyHeap) (o : PyJSONOutput) (k : String) (v : JVal) :
    PyHeap :=
  match heapGet h o.metaRef with
  | some d => heapSet h o.metaRef (dictSet d k v)
  | none => h

/-- `JSONConfig.__getitem__`: `self.meta[key]`, read through the config's
reference. -/
def PyJSONConfig.getItem (h : PyHeap) (c : PyJSONConfig) (k : String) : Option JVal :=
  (heapGet h c.metaRef).bind (fun d => dictLookup d k)

/-! ## Error model

The Python exceptions that can arise on the modelled paths, together with the
`str(e)` rendering used by the inner boundary (`out_json["error_info"] = str(e)`)
and by the outer notification (`publish_message(..., str(e), ...)`). -/

/-- A raised Python exception. `external` stands for whatever the external
TVM / storage / onnx capabilities raise, carrying `str(e)`. -/
inductive PyErr where
  | notImplemented
  | unboundLocal : String → PyErr
  | keyError : String → PyErr
  | attributeError : String → PyErr
  | external : String → PyErr

/-- Python `str(e)`. `str(NotImplementedError())` is the empty string;
`str(KeyError(k))` is the repr of the key. -/
def errMsg (e : PyErr) : String :=
  match e with
  | .notImplemented => ""
  | .unboundLocal v => "local variable \x27" ++ v ++ "\x27 referenced before assignment"
  | .keyError k => "\x27" ++ k ++ "\x27"
  | .attributeError m => m
  | .external m => m

/-- Dict subscription `d[k]`, raising `KeyError` when the key is absent. -/
def dictGetE (d : Dict) (k : String) : Except PyErr JVal :=
  match dictLookup d k with
  | some v => .ok v
  | none => .error (.keyError k)

/-- Subscription on a JSON value (`config["tuning_config"]["mode"]` style). -/
def jGetE (v : JVal) (k : String) : Except PyErr JVal :=
  match v with
  | .vObj d => dictGetE d k
  | _ => .error (.attributeError "object is not subscriptable")

/-! ## External world

Outcomes of every external call the pipeline makes, fixed up front: `none`
means the call succeeds, `some m` means it raises with message `m`. -/

/-- Outcomes of the job's external collaborators and inputs. -/
structure World where
  /-- Contents of `config.json` once parsed. -/
  config : Dict
  /-- Record files already present in the output directory. -/
  files0 : List String
  /-- `download_file_from_gcp` (either blob). -/
  downloadErr : Option String
  /-- `JSONConfig` load (open / `json.load`). -/
  configErr : Option String
  /-- `convert2onnx`. -/
  convertErr : Option String
  /-- `relay.frontend.from_onnx` in `AnsorEngine.__init__`. -/
  frontendErr : Option String
  /-- `auto_scheduler.extract_tasks` / `tuner.tune` (the search). -/
  tuneErr : Option String
  /-- Whether `RecordToFile` had already created the record file when a
  mid-search failure hit (measured trials landed before the error). -/
  recordCreated : Bool
  /-- `relay.build` inside `ansor_compile`. -/
  buildErr : Option String
  /-- `module.benchmark` / onnxruntime inside `evaluate`. -/
  evalErr : Option String
  /-- `upload_blobs_from_directory`. -/
  uploadErr : Option String

/-! ## Observable events of one job run -/

/-- The externally observable actions of a job run, in order. -/
inductive JobEvent where
  /-- `out_json.save(...)` with the report it persisted. -/
  | save : Dict → JobEvent
  /-- `publish_message(project, topic, payload, job_id, job_status = status)`. -/
  | notify : String → String → JobEvent
  /-- `upload_blobs_from_directory(...)` completed. -/
  | uploadDir : JobEvent
  /-- The `optimum.ansor_engine.evaluate()` statement was reached. -/
  | benchAttempt : JobEvent
  /-- `evaluate()` itself was invoked (the engine attribute existed). -/
  | evalCall : JobEvent
  /-- `evaluate()` completed and wrote `inference_time.csv`. -/
  | csvWritten : JobEvent
  /-- `ae.ansor_run_tuning(num_measure_trials, verbose)` was invoked. -/
  | tuneCall : Int → Int → JobEvent
  /-- `ansor_compile(log_file)` was invoked with the given record path. -/
  | compileCall : String → JobEvent

/-! ## AnsorEngine (src/dlacc/ansor_engine.py) -/

/-- Modelled from the spec: `src/dlacc/metadata.py` is not under `src/`; it
supplies the local working-directory constants `output_prefix` / `input_prefix`
used for artifact paths. Only their string values flow into paths, so a fixed
name suffices. -/
def outputDir : String := "output"

/-- The mutable state threaded through a job: the shared report dict (the one
object aliased by config and report), the record files on disk, the engine's
`self.log_file`, whether a runnable module exists, and the event trace. -/
structure EngSt where
  report : Dict
  files : List String
  logFile : Option String
  moduleReady : Bool
  trace : List JobEvent

/-- `AnsorEngine` after `__init__`: the slash-sanitized network name, the raw
target, and the input shape/dtype dictionaries (stored but not consulted by
any modelled operation). -/
structure AnsorEngine where
  networkName : String
  target : JVal
  inputShape : JVal
  inputDtype : JVal

/-- The record path built at the top of `ansor_run_tuning`, without its
`".json"` extension: `output_prefix + "/tuninglog_network_name=%s--target=%s"`. -/
def tuningLogBase (networkName : String) (target : JVal) : String :=
  outputDir ++ "/tuninglog_network_name=" ++ networkName ++ "--target=" ++
    jvalRender target

/-- The full record path (the extension is appended last, so `".json"` is
always the path's final suffix in `pathlib`'s sense). -/
def tuningLogPath (networkName : String) (target : JVal) : String :=
  tuningLogBase networkName target ++ ".json"

/-- Drop the trailing 5-character `".json"` extension: `pathlib`'s
`parent / stem` reconstruction for the paths built by `tuningLogPath`. -/
def dropExt5 (p : String) : String :=
  ⟨p.data.take (p.data.length - 5)⟩

/-- The `_finished` rename: `pathlib` splits the path into parent, stem and
suffix and rebuilds `parent/(stem + "_finished") + suffix`. Every path this
code renames was built by `tuningLogPath`, which appends `".json"` last, so the
final suffix is always `".json"` and the rename is exactly: drop the trailing
`".json"`, append `"_finished.json"`. -/
def insertFinished (path : String) : String :=
  dropExt5 path ++ "_finished" ++ ".json"




/-- `AnsorEngine.ansor_compile(log_file)`: records the invocation, updates
`self.log_file` when a truthy path is passed, then `relay.build` (which may
fail); on success the module is created and the shared report gets
`status = 3`. The three artifact files written by `_save` are not tracked — no
claim mentions them. -/
def ansor_compile (w : World) (st : EngSt) (logFile : String) :
    EngSt × Option PyErr :=
  let st := { st with trace := st.trace ++ [JobEvent.compileCall logFile] }
  let st := if logFile ≠ "" then { st with logFile := some logFile } else st
  match w.buildErr with
  | some m => (st, some (.external m))
  | none =>
    ({ st with
        moduleReady := true
        report := dictSet st.report "status" (.vInt 3) }, none)

/-- `AnsorEngine.ansor_run_tuning(num_measure_trials, verbose)`: builds the
record path, runs the search (extract_tasks + tuner.tune, which appends trial
outcomes to the record file via `RecordToFile`); on search success renames the
record to its `_finished` form, stamps `status = 2` on the shared report, and
chains unconditionally into `ansor_compile` on the renamed record. A mid-search
failure propagates with the record absent or still under its original name and
the report untouched. -/
def ansor_run_tuning (w : World) (e : AnsorEngine) (st : EngSt)
    (numMeasureTrials verbose : Int) : EngSt × Option PyErr :=
  let logFile := tuningLogPath e.networkName e.target
  let st := { st with
      logFile := some logFile
      trace := st.trace ++ [JobEvent.tuneCall numMeasureTrials verbose] }
  match w.tuneErr with
  | some m =>
    let st := if w.recordCreated then { st with files := st.files ++ [logFile] } else st
    (st, some (.external m))
  | none =>
    let finished := insertFinished logFile
    let st := { st with
        files := (st.files.filter (fun f => f ≠ logFile)) ++ [finished]
        logFile := some finished }
    let st := { st with report := dictSet st.report "status" (.vInt 2) }
    ansor_compile w st finished

/-! ## Optimum (src/dlacc/optimum.py) -/

/-- Coercion of a config value to the int used as search budget / verbosity.
On every claimed path these values are ints already; other shapes default to 0. -/
def jvalAsInt (v : JVal) : Int :=
  match v with
  | .vInt n => n
  | _ => 0

/-- Result of `Optimum.run`: the state as mutated so far, the exception if one
escaped, and whether `self.ansor_engine = ae` executed. -/
structure OptOut where
  st : EngSt
  err : Option PyErr
  engineSet : Bool

/-- The config subscriptions `Optimum.run` performs while building the
arguments of `_run`, in Python argument-evaluation order; the first missing
key raises its `KeyError`. -/
def optimumLookups (cfg : Dict) :
    Except PyErr (JVal × JVal × JVal × JVal × JVal × JVal × JVal) := do
  let target ← dictGetE cfg "target"
  let tc1 ← dictGetE cfg "tuning_config"
  let trials ← jGetE tc1 "num_measure_trials"
  let tc2 ← dictGetE cfg "tuning_config"
  let mode ← jGetE tc2 "mode"
  let tunedLog ← dictGetE cfg "tuned_log"
  let mc1 ← dictGetE cfg "model_config"
  let ishape ← jGetE mc1 "input_shape"
  let mc2 ← dictGetE cfg "model_config"
  let idtype ← jGetE mc2 "input_dtype"
  let tc3 ← dictGetE cfg "tuning_config"
  let verbose ← jGetE tc3 "verbose_print"
  .ok (target, trials, mode, tunedLog, ishape, idtype, verbose)

/-- `Optimum.run(onnx_model, config)` followed by `Optimum._run`: performs the
config subscriptions in Python argument-evaluation order, then dispatches on
`mode`: `"ansor"` constructs the engine (`from_onnx` may fail) and either
compiles directly from a truthy `tuned_log` or runs the search; `"autotvm"`
raises `NotImplementedError`; any other mode falls through the `if`/`elif` and
crashes on `self.ansor_engine = ae` with `ae` unbound. -/
def optimumRun (w : World) (modelNameV : JVal) (st : EngSt) : OptOut :=
  match optimumLookups st.report with
  | .error e => ⟨st, some e, false⟩
  | .ok (target, trialsV, mode, tunedLogV, ishape, idtype, verboseV) =>
    if jEqStr mode "ansor" then
      match modelNameV with
      | .vStr mn =>
        match w.frontendErr with
        | some m => ⟨st, some (.external m), false⟩
        | none =>
          let e : AnsorEngine := ⟨mn.replace "/" "_", target, ishape, idtype⟩
          let r :=
            if jNeStr tunedLogV "" then
              ansor_compile w st (jvalRender tunedLogV)
            else
              ansor_run_tuning w e st (jvalAsInt trialsV) (jvalAsInt verboseV)
          match r.2 with
          | some er => ⟨r.1, some er, false⟩
          | none => ⟨r.1, none, true⟩
      | _ => ⟨st, some (.attributeError "object has no attribute replace"), false⟩
    else if jEqStr mode "autotvm" then
      ⟨st, some .notImplemented, false⟩
    else
      ⟨st, some (.unboundLocal "ae"), false⟩

/-! ## Pipeline orchestrator (src/app/main.py `run`) -/

/-- Modelled from the spec: `src/dlacc/metadata.py` is not under `src/`; it
defines `platformType`, of which `run` only compares `args.env` against
`platformType.GOOGLESTORAGE`, so only this one integer value matters. -/
def GOOGLESTORAGE : Int := 1

/-- The CLI arguments `run` consults (the bucket/topic/project strings only
flow into the external calls and never into a claimed observable). -/
structure CliArgs where
  env : Int
  jobId : Int

/-- `out_json = JSONOutput(config)` (the report aliases the config dict — see
the heap model above; functionally the report starts as the config dict)
followed by `out_json["status"] = 1`. This is the report state in which the
Optimizer is invoked. -/
def initialReport (cfg : Dict) : Dict :=
  dictSet cfg "status" (.vInt 1)

/-- Job state at the start of the inner boundary. -/
def initSt (w : World) : EngSt :=
  { report := initialReport w.config
    files := w.files0
    logFile := none
    moduleReady := false
    trace := [] }

/-- Result of the inner `try` block: state, escaped exception, whether the
local `optimum` got bound, whether `optimum.ansor_engine` exists. -/
structure InnerOut where
  st : EngSt
  err : Option PyErr
  optBound : Bool
  engineSet : Bool

/-- The inner `try` block: `optimum = Optimum(out_json["model_name"])` (a
`KeyError` here leaves `optimum` unbound) then `optimum.run(onnx_model,
out_json)`. -/
def innerStage (w : World) : InnerOut :=
  let st0 := initSt w
  match dictGetE st0.report "model_name" with
  | .error e => ⟨st0, some e, false, false⟩
  | .ok mn =>
    let r := optimumRun w mn st0
    ⟨r.st, r.err, true, r.engineSet⟩

/-- The `except` clause of the inner boundary: on an escaped exception,
`out_json["error_info"] = str(e)` then `out_json["status"] = -1`; otherwise the
state passes through untouched. -/
def applyInner (io : InnerOut) : EngSt :=
  match io.err with
  | some e =>
    { io.st with
        report := dictSet (dictSet io.st.report "error_info" (.vStr (errMsg e)))
          "status" (.vInt (-1)) }
  | none => io.st

/-- The tail of `run` after the report is saved: the upload/publish block,
executed only in GOOGLESTORAGE mode.  `str(out_json["status"])` is the
published job status. -/
def uploadPhase (a : CliArgs) (w : World) (st : EngSt) (tr : List JobEvent) :
    List JobEvent :=
  if a.env = GOOGLESTORAGE then
    match w.uploadErr with
    | some m => tr ++ [.notify m "-1"]
    | none =>
      match dictGetE st.report "status" with
      | .error e => tr ++ [JobEvent.uploadDir, .notify (errMsg e) "-1"]
      | .ok sv => tr ++ [JobEvent.uploadDir, .notify "OK" (jvalRender sv)]
  else tr

/-- Everything after the inner boundary: sticky-failure check and promotion to
`status = 4`, the unconditional `out_json.save(...)`, the benchmark block
guarded only by `config["need_benchmark"]` (an escaped exception here reaches
the outer boundary), and the upload/publish block. -/
def deliver (a : CliArgs) (w : World) (io : InnerOut) : List JobEvent :=
  let st := applyInner io
  match dictGetE st.report "status" with
  | .error e => st.trace ++ [.notify (errMsg e) "-1"]
  | .ok sv =>
    let st := if jEqInt sv (-1) then st
              else { st with report := dictSet st.report "status" (.vInt 4) }
    let tr := st.trace ++ [JobEvent.save st.report]
    match dictGetE st.report "need_benchmark" with
    | .error e => tr ++ [.notify (errMsg e) "-1"]
    | .ok nb =>
      if truthy nb then
        let tr := tr ++ [JobEvent.benchAttempt]
        if !io.optBound then
          tr ++ [.notify (errMsg (.unboundLocal "optimum")) "-1"]
        else if !io.engineSet then
          tr ++ [.notify (errMsg (.attributeError
            ("\x27Optimum\x27 object has no attribute \x27ansor_engine\x27"))) "-1"]
        else
          let tr := tr ++ [JobEvent.evalCall]
          match w.evalErr with
          | some m => tr ++ [.notify m "-1"]
          | none => uploadPhase a w st (tr ++ [JobEvent.csvWritten])
      else uploadPhase a w st tr

/-- The first exception raised before the report object exists: the two
downloads (GOOGLESTORAGE mode only), the config load, the onnx conversion. -/
def preErr (a : CliArgs) (w : World) : Option String :=
  match (if a.env = GOOGLESTORAGE then w.downloadErr else none) with
  | some m => some m
  | none =>
    match w.configErr with
    | some m => some m
    | none => w.convertErr

/-- `run(args)`: the outer `try` publishes `(str(e), "-1")` for any exception
the inner boundary did not catch; otherwise the pipeline runs end to end. -/
def runJob (a : CliArgs) (w : World) : List JobEvent :=
  match preErr a w with
  | some m => [.notify m "-1"]
  | none => deliver a w (innerStage w)

/-- Is an event a published notification? -/
def isNotify (e : JobEvent) : Bool :=
  match e with
  | .notify _ _ => true
  | _ => false

/-- Is an event a persisted report? -/
def isSave (e : JobEvent) : Bool :=
  match e with
  | .save _ => true
  | _ => false

/-- Number of notifications in a trace. -/
def notifyCount (t : List JobEvent) : Nat :=
  (t.filter isNotify).length

/-- Number of report persistences in a trace. -/
def saveCount (t : List JobEvent) : Nat :=
  (t.filter isSave).length

/-! ## A well-formed job config

The claims quantify over configs of the documented shape (§3 of the spec);
`sampleConfig` ranges over all field values of that shape. -/

/-- The `tuning_config` sub-dictionary. -/
def tuningCfg (mode : String) (trials verbose : Int) : JVal :=
  .vObj [("mode", .vStr mode), ("num_measure_trials", .vInt trials),
         ("verbose_print", .vInt verbose)]

/-- A config with the documented fields, parametrized by every value the
pipeline branches on. -/
def sampleConfig (modelName mode tunedLog target : String) (trials verbose : Int)
    (needBench : Bool) : Dict :=
  [("model_name", .vStr modelName),
   ("model_type", .vInt 0),
   ("model_config", .vObj [("input_shape", .vObj []), ("input_dtype", .vObj [])]),
   ("target", .vStr target),
   ("tuning_config", tuningCfg mode trials verbose),
   ("tuned_log", .vStr tunedLog),
   ("need_benchmark", .vBool needBench)]

/-- A world in which every external call succeeds applying the given config. -/
def okWorld (cfg : Dict) : World :=
  { config := cfg
    files0 := []
    downloadErr := none
    configErr := none
    convertErr := none
    frontendErr := none
    tuneErr := none
    recordCreated := false
    buildErr := none
    evalErr := none
    uploadErr := none }

/-! ## Concrete fixtures used by witnesses and counterexamples -/

/-- An empty engine state (fresh job, empty report, no files). -/
def emptySt : EngSt :=
  { report := [], files := [], logFile := none, moduleReady := false, trace := [] }

/-- A sample engine for the network "m" targeting "llvm". -/
def sampleEngine : AnsorEngine :=
  ⟨"m", JVal.vStr "llvm", JVal.vObj [], JVal.vObj []⟩

/-! ## Trace tails

Named summaries of the events `run` appends after the report is saved; the
`deliver` equations below prove they match the orchestrator's behaviour. -/

/-- Events of the upload/publish block: nothing in local mode; in
GOOGLESTORAGE mode either the upload failure notification, or the upload
followed by the `("OK", str(status))` notification. -/
def uploadTail (a : CliArgs) (w : World) (sv : JVal) : List JobEvent :=
  if a.env = GOOGLESTORAGE then
    match w.uploadErr with
    | some m => [JobEvent.notify m "-1"]
    | none => [JobEvent.uploadDir, JobEvent.notify "OK" (jvalRender sv)]
  else []

/-- Events after the save when the Optimizer stage failed: if benchmarking is
requested the benchmark statement is reached and the missing `ansor_engine`
attribute aborts to the outer boundary; otherwise the upload block runs with
status −1. -/
def failTail (a : CliArgs) (w : World) (nbv : JVal) : List JobEvent :=
  if truthy nbv then
    [JobEvent.benchAttempt,
     JobEvent.notify
       "\x27Optimum\x27 object has no attribute \x27ansor_engine\x27" "-1"]
  else uploadTail a w (JVal.vInt (-1))

/-- Events after the save when the Optimizer stage succeeded: optional
benchmark (whose failure aborts to the outer boundary), then the upload block
with status 4. -/
def okTail (a : CliArgs) (w : World) (nbv : JVal) : List JobEvent :=
  if truthy nbv then
    [JobEvent.benchAttempt, JobEvent.evalCall] ++
    (match w.evalErr with
     | some m => [JobEvent.notify m "-1"]
     | none => [JobEvent.csvWritten] ++ uploadTail a w (JVal.vInt 4))
  else uploadTail a w (JVal.vInt 4)

/-! ## Helper lemmas -/

theorem dictLookup_dictSet_same (d : Dict) (k : String) (v : JVal) :
    dictLookup (dictSet d k v) k = some v := by
  induction d with
  | nil => simp [dictSet, dictLookup]
  | cons hd tl ih =>
    by_cases h : hd.1 = k
    · simp [dictSet, dictLookup, h]
    · simp [dictSet, dictLookup, h, ih]

theorem dictLookup_dictSet_other (d : Dict) (k k2 : String) (v : JVal) (hne : k2 ≠ k) :
    dictLookup (dictSet d k v) k2 = dictLookup d k2 := by
  induction d with
  | nil => simp [dictSet, dictLookup, Ne.symm hne]
  | cons hd tl ih =>
    obtain ⟨k1, v1⟩ := hd
    by_cases h : k1 = k
    · subst h
      simp [dictSet, dictLookup, Ne.symm hne]
    · by_cases h2 : k1 = k2
      · subst h2
        simp [dictSet, dictLookup, hne]
      · simp [dictSet, dictLookup, h, h2, ih]

theorem heapGet_heapSet_same (h : PyHeap) (r : Ref) (d : Dict)
    (hmem : (heapGet h r).isSome) : heapGet (heapSet h r d) r = some d := by
  induction h with
  | nil => simp [heapGet] at hmem
  | cons hd tl ih =>
    by_cases he : hd.1 = r
    · simp [heapSet, heapGet, he]
    · simp [heapGet, he] at hmem
      simp [heapSet, heapGet, he, ih hmem]

theorem dropExt5_append (a : String) : dropExt5 (a ++ ".json") = a := by
  apply String.ext
  show ((a ++ ".json").data.take ((a ++ ".json").data.length - 5)) = a.data
  rw [String.data_append, List.length_append]
  have h5 : (".json".data).length = 5 := rfl
  rw [h5, Nat.add_sub_cancel]
  exact List.take_left a.data _

theorem insertFinished_append (a : String) :
    insertFinished (a ++ ".json") = a ++ "_finished" ++ ".json" := by
  rw [insertFinished, dropExt5_append]

theorem insertFinished_ne (a : String) :
    insertFinished (a ++ ".json") ≠ a ++ ".json" := by
  intro h
  have hlen := congrArg String.length h
  rw [insertFinished_append] at hlen
  have h9 : ("_finished" : String).length = 9 := rfl
  have h5 : (".json" : String).length = 5 := rfl
  simp only [String.length_append, h9, h5] at hlen
  omega

theorem applyInner_trace (io : InnerOut) : (applyInner io).trace = io.st.trace := by
  unfold applyInner
  cases io.err <;> rfl

theorem applyInner_files (io : InnerOut) : (applyInner io).files = io.st.files := by
  unfold applyInner
  cases io.err <;> rfl

theorem ansor_compile_report (w : World) (st : EngSt) (l : String) :
    (ansor_compile w st l).1.report
      = (if w.buildErr = none then dictSet st.report "status" (JVal.vInt 3)
         else st.report) := by
  cases h : w.buildErr <;> by_cases hl : l = "" <;> simp [ansor_compile, h, hl]

theorem ansor_compile_trace (w : World) (st : EngSt) (l : String) :
    (ansor_compile w st l).1.trace = st.trace ++ [JobEvent.compileCall l] := by
  cases h : w.buildErr <;> by_cases hl : l = "" <;> simp [ansor_compile, h, hl]

theorem ansor_compile_files (w : World) (st : EngSt) (l : String) :
    (ansor_compile w st l).1.files = st.files := by
  cases h : w.buildErr <;> by_cases hl : l = "" <;> simp [ansor_compile, h, hl]

theorem ansor_compile_err (w : World) (st : EngSt) (l : String) :
    (ansor_compile w st l).2 = w.buildErr.map PyErr.external := by
  cases h : w.buildErr <;> by_cases hl : l = "" <;> simp [ansor_compile, h, hl]

/-! ## Claim C4 -/

/-- C4 counterexample: take a run in which the search itself succeeds but the
chained compile fails (`relay.build` raises). `ansor_run_tuning` as a whole
raises, yet the record file has already been renamed to its `_finished` form —
so "the record is renamed if and only if `run_tuning` completes without error"
is false: the rename marks completion of the search, not of `run_tuning`. -/
theorem c4_counterexample :
    ¬ ((insertFinished (tuningLogPath "m" (JVal.vStr "llvm")) ∈
          (ansor_run_tuning { okWorld [] with buildErr := some "build failed" }
            sampleEngine emptySt 10 0).1.files) ↔
        (ansor_run_tuning { okWorld [] with buildErr := some "build failed" }
            sampleEngine emptySt 10 0).2 = none) := by
  intro hiff
  have hmem : insertFinished (tuningLogPath "m" (JVal.vStr "llvm")) ∈
      (ansor_run_tuning { okWorld [] with buildErr := some "build failed" }
        sampleEngine emptySt 10 0).1.files := by
    have hf : (ansor_run_tuning { okWorld [] with buildErr := some "build failed" }
        sampleEngine emptySt 10 0).1.files
          = [insertFinished (tuningLogPath "m" (JVal.vStr "llvm"))] := rfl
    rw [hf]
    exact List.mem_singleton.mpr rfl
  have h2 : (ansor_run_tuning { okWorld [] with buildErr := some "build failed" }
      sampleEngine emptySt 10 0).2 = some (PyErr.external "build failed") := rfl
  rw [h2] at hiff
  exact Option.noConfusion (hiff.mp hmem)

/-- C4 (amended): the record file is renamed to its `_finished` form (the
suffix inserted between stem and extension) if and only if the *search* phase
of `run_tuning` completes without error; on search success the report status
is set to 2 and compile is chained unconditionally (so a `run_tuning` that
returns without error leaves status 3, and a compile failure after the rename
leaves status 2 with the record already renamed); `run_tuning` returns without
error iff both search and compile succeed; and a mid-search failure leaves the
record absent or un-renamed and the report status unchanged. -/
theorem c4_rename_iff_search (w : World) (e : AnsorEngine) (st : EngSt)
    (trials verbose : Int)
    (hfresh : insertFinished (tuningLogPath e.networkName e.target) ∉ st.files) :
    ((insertFinished (tuningLogPath e.networkName e.target) ∈
        (ansor_run_tuning w e st trials verbose).1.files) ↔ w.tuneErr = none) ∧
    (w.tuneErr = none →
      JobEvent.compileCall (insertFinished (tuningLogPath e.networkName e.target)) ∈
        (ansor_run_tuning w e st trials verbose).1.trace ∧
      dictLookup (ansor_run_tuning w e st trials verbose).1.report "status"
        = some (JVal.vInt (if w.buildErr = none then 3 else 2))) ∧
    ((ansor_run_tuning w e st trials verbose).2 = none ↔
      (w.tuneErr = none ∧ w.buildErr = none)) ∧
    (w.tuneErr ≠ none →
      dictLookup (ansor_run_tuning w e st trials verbose).1.report "status"
        = dictLookup st.report "status") := by
  have hne : insertFinished (tuningLogPath e.networkName e.target)
      ≠ tuningLogPath e.networkName e.target :=
    insertFinished_ne (tuningLogBase e.networkName e.target)
  cases htune : w.tuneErr with
  | none =>
    cases hbuild : w.buildErr with
    | none =>
      simp [ansor_run_tuning, htune, hbuild, ansor_compile_report,
        ansor_compile_trace, ansor_compile_files, ansor_compile_err,
        dictLookup_dictSet_same]
    | some m =>
      simp [ansor_run_tuning, htune, hbuild, ansor_compile_report,
        ansor_compile_trace, ansor_compile_files, ansor_compile_err,
        dictLookup_dictSet_same]
  | some m =>
    cases hrec : w.recordCreated <;>
      simp [ansor_run_tuning, htune, hrec, hfresh, hne]

/-- C4 witness: in an all-successful world starting from a fresh state, the
renamed record is present after `run_tuning`. -/
theorem c4_rename_iff_search_witness :
    insertFinished (tuningLogPath "m" (JVal.vStr "llvm")) ∈
      (ansor_run_tuning (okWorld []) sampleEngine emptySt 10 0).1.files := by
  exact (c4_rename_iff_search (okWorld []) sampleEngine emptySt 10 0
    (by simp [emptySt])).1.mpr rfl

/-! ## Claim C9 -/

/-- C9: the callable returned by `get_model()`, applied to any input mapping,
returns a mapping whose keys are exactly `output_0 .. output_{n-1}` where `n`
is the module's declared output count, with `output_i` bound to the module's
i-th output in module output order. -/
theorem c9_output_names {A : Type} (m : GraphModule A) (inputs : List (String × A)) :
    (gmwCall m inputs).map Prod.fst
      = (List.range m.numOutputs).map (fun i => "output_" ++ toString i) ∧
    ∀ i, i < m.numOutputs →
      (gmwCall m inputs)[i]? = some ("output_" ++ toString i, m.run inputs i) := by
  constructor
  · simp [gmwCall, List.map_map, Function.comp]
  · intro i h
    simp [gmwCall, List.getElem?_map, List.getElem?_range, h]

/-- C9 witness: a module with two declared outputs yields exactly the keys
`output_0`, `output_1`, with the i-th output at position i. -/
theorem c9_output_names_witness :
    (gmwCall (GraphModule.mk 2 (fun _ i => i)) ([("x", 5)] : List (String × Nat)))[1]?
      = some ("output_" ++ toString 1, 1) := by
  exact (c9_output_names (GraphModule.mk 2 (fun _ i => i)) [("x", 5)]).2 1 (by decide)

/-! ## Claim C10 -/

/-- C10: `JSONOutput(config)` aliases the config's underlying dict: a write
through the report is observable through the original config object. -/
theorem c10_aliasing (h : PyHeap) (c : PyJSONConfig) (k : String) (v : JVal)
    (href : (heapGet h c.metaRef).isSome) :
    PyJSONConfig.getItem
      (PyJSONOutput.setItem h (PyJSONOutput.ofConfig c) k v) c k = some v := by
  unfold PyJSONOutput.setItem PyJSONOutput.ofConfig PyJSONConfig.getItem
  cases hd : heapGet h c.metaRef with
  | none => simp [hd] at href
  | some d =>
    simp only [hd]
    rw [heapGet_heapSet_same h c.metaRef (dictSet d k v) (by simp [hd])]
    simp [dictLookup_dictSet_same]

/-- C10 witness: writing `status = 7` through the report built from a config
whose dict lives at heap address 0 is visible through the config. -/
theorem c10_aliasing_witness :
    PyJSONConfig.getItem
      (PyJSONOutput.setItem [(0, [("a", JVal.vInt 1)])]
        (PyJSONOutput.ofConfig ⟨0⟩) "status" (JVal.vInt 7))
      ⟨0⟩ "status" = some (JVal.vInt 7) := by
  exact c10_aliasing [(0, [("a", JVal.vInt 1)])] ⟨0⟩ "status" (JVal.vInt 7) (by decide)

/-! ## Claim C1 -/

/-- C1 counterexample: `JSONOutput(config)` itself stamps no status at all
(the report is the very config dict), and the orchestrator then executes
`out_json["status"] = 1` — so the report's status just before the Optimizer is
invoked is 1, not 0. -/
theorem c1_counterexample :
    dictLookup (sampleConfig "m" "ansor" "" "llvm" 10 0 false) "status" = none ∧
    dictLookup (initialReport (sampleConfig "m" "ansor" "" "llvm" 10 0 false)) "status"
      = some (JVal.vInt 1) ∧
    ¬ dictLookup (initialReport (sampleConfig "m" "ansor" "" "llvm" 10 0 false)) "status"
      = some (JVal.vInt 0) := by
  refine ⟨rfl, rfl, ?_⟩
  intro hc
  rw [show dictLookup (initialReport (sampleConfig "m" "ansor" "" "llvm" 10 0 false))
      "status" = some (JVal.vInt 1) from rfl] at hc
  simp at hc

/-- C1 (amended): the report built from a loaded config contains every config
field (the underlying dict is aliased, so each config key reads back
unchanged), and the orchestrator seeds `status = 1` — not 0 — before the
Optimizer is invoked. -/
theorem c1_report_seed (cfg : Dict) (k : String) (hk : k ≠ "status") :
    dictLookup (initialReport cfg) k = dictLookup cfg k ∧
    dictLookup (initialReport cfg) "status" = some (JVal.vInt 1) := by
  exact ⟨dictLookup_dictSet_other cfg "status" k (JVal.vInt 1) hk,
    dictLookup_dictSet_same cfg "status" (JVal.vInt 1)⟩

/-- C1 witness: the `model_name` field of a sample config survives into the
report, whose status is 1. -/
theorem c1_report_seed_witness :
    dictLookup (initialReport (sampleConfig "m" "ansor" "" "llvm" 10 0 false)) "model_name"
      = dictLookup (sampleConfig "m" "ansor" "" "llvm" 10 0 false) "model_name" ∧
    dictLookup (initialReport (sampleConfig "m" "ansor" "" "llvm" 10 0 false)) "status"
      = some (JVal.vInt 1) := by
  exact c1_report_seed (sampleConfig "m" "ansor" "" "llvm" 10 0 false) "model_name"
    (by decide)

/-! ## Claim C2 -/

/-- C2 counterexample: for the unknown mode `"xyz"`, `Optimum._run` falls
through the `if`/`elif` chain without raising an unsupported-mode error and
then crashes on `self.ansor_engine = ae` with `ae` unbound — an incidental
`UnboundLocalError`, not the explicit `NotImplementedError` that the claim
says every non-`"ansor"` mode produces. -/
theorem c2_counterexample :
    (optimumRun (okWorld (sampleConfig "m" "xyz" "" "llvm" 10 0 false)) (JVal.vStr "m")
        (initSt (okWorld (sampleConfig "m" "xyz" "" "llvm" 10 0 false)))).err
      = some (PyErr.unboundLocal "ae") ∧
    ¬ (optimumRun (okWorld (sampleConfig "m" "xyz" "" "llvm" 10 0 false)) (JVal.vStr "m")
        (initSt (okWorld (sampleConfig "m" "xyz" "" "llvm" 10 0 false)))).err
      = some PyErr.notImplemented := by
  refine ⟨rfl, ?_⟩
  intro hc
  rw [show (optimumRun (okWorld (sampleConfig "m" "xyz" "" "llvm" 10 0 false))
      (JVal.vStr "m")
      (initSt (okWorld (sampleConfig "m" "xyz" "" "llvm" 10 0 false)))).err
      = some (PyErr.unboundLocal "ae") from rfl] at hc
  simp at hc

/-- C2 (amended): every tuning mode other than `"ansor"` makes `Optimizer.run`
fail before any engine work happens — the state (and hence the engine-call
trace) is untouched and `ansor_engine` is never set — but only `"autotvm"`
fails with the explicit `NotImplementedError`; any other unknown mode fails
with an `UnboundLocalError` from the trailing `self.ansor_engine = ae`
assignment. -/
theorem c2_unsupported_modes (w : World) (modelName mode tunedLog target : String)
    (trials verbose : Int) (needBench : Bool)
    (hcfg : w.config = sampleConfig modelName mode tunedLog target trials verbose needBench)
    (hmode : mode ≠ "ansor") :
    (optimumRun w (JVal.vStr modelName) (initSt w)).err
      = some (if mode = "autotvm" then PyErr.notImplemented
              else PyErr.unboundLocal "ae") ∧
    (optimumRun w (JVal.vStr modelName) (initSt w)).st = initSt w ∧
    (optimumRun w (JVal.vStr modelName) (initSt w)).engineSet = false := by
  by_cases hm2 : mode = "autotvm" <;>
    simp [optimumRun, optimumLookups, initSt, initialReport, hcfg, sampleConfig, tuningCfg,
      dictSet, dictGetE, dictLookup, jGetE, jEqStr, hmode, hm2, bind, Except.bind]

/-- C2 witness: with mode `"autotvm"` the failure is the explicit
`NotImplementedError`, the state is untouched and the engine is never set. -/
theorem c2_unsupported_modes_witness :
    (optimumRun (okWorld (sampleConfig "m" "autotvm" "" "llvm" 10 0 false))
        (JVal.vStr "m")
        (initSt (okWorld (sampleConfig "m" "autotvm" "" "llvm" 10 0 false)))).err
      = some (if "autotvm" = "autotvm" then PyErr.notImplemented
              else PyErr.unboundLocal "ae") := by
  exact (c2_unsupported_modes (okWorld (sampleConfig "m" "autotvm" "" "llvm" 10 0 false))
    "m" "autotvm" "" "llvm" 10 0 false rfl (by decide)).1

/-! ## Claim C6 -/

/-- C6: in the `"ansor"` strategy (with the engine construction itself
succeeding), a non-empty `tuned_log` makes the Optimizer call compile directly
on exactly that path and never invoke `run_tuning`; an empty `tuned_log` makes
the first engine call be `run_tuning` with the config's `num_measure_trials`
and `verbose_print` (so compile is not called directly — any compile call on
that path is the one chained from inside `run_tuning`). -/
theorem c6_cache_decision (w : World) (modelName tunedLog target : String)
    (trials verbose : Int) (needBench : Bool)
    (hcfg : w.config = sampleConfig modelName "ansor" tunedLog target trials verbose needBench)
    (hfront : w.frontendErr = none) :
    (tunedLog ≠ "" →
      (optimumRun w (JVal.vStr modelName) (initSt w)).st.trace
        = [JobEvent.compileCall tunedLog]) ∧
    (∀ t v, JobEvent.tuneCall t v ∈
        (optimumRun w (JVal.vStr modelName) (initSt w)).st.trace → tunedLog = "") ∧
    (tunedLog = "" →
      (optimumRun w (JVal.vStr modelName) (initSt w)).st.trace.head?
        = some (JobEvent.tuneCall trials verbose)) := by
  by_cases hl : tunedLog = ""
  · subst hl
    refine ⟨fun hcontra => absurd rfl hcontra, fun t v _ => rfl, fun _ => ?_⟩
    cases htune : w.tuneErr with
    | none =>
      cases hbuild : w.buildErr <;>
        simp [optimumRun, optimumLookups, initSt, initialReport, hcfg, sampleConfig, tuningCfg,
          dictSet, dictGetE, dictLookup, jGetE, jEqStr, jNeStr, jvalAsInt,
          bind, Except.bind, ansor_run_tuning, htune, hbuild, hfront,
          ansor_compile_trace, ansor_compile_err]
    | some m =>
      cases hrec : w.recordCreated <;>
        simp [optimumRun, optimumLookups, initSt, initialReport, hcfg, sampleConfig, tuningCfg,
          dictSet, dictGetE, dictLookup, jGetE, jEqStr, jNeStr, jvalAsInt,
          bind, Except.bind, ansor_run_tuning, htune, hrec, hfront]
  · have htr : (optimumRun w (JVal.vStr modelName) (initSt w)).st.trace
        = [JobEvent.compileCall tunedLog] := by
      cases hbuild : w.buildErr <;>
        simp [optimumRun, optimumLookups, initSt, initialReport, hcfg, sampleConfig, tuningCfg,
          dictSet, dictGetE, dictLookup, jGetE, jEqStr, jNeStr, jvalRender,
          bind, Except.bind, hl, hfront, ansor_compile_trace, ansor_compile, hbuild]
    refine ⟨fun _ => htr, fun t v hmem => ?_, fun hcontra => absurd hcontra hl⟩
    rw [htr] at hmem
    simp at hmem

/-- C6 witness: with a non-empty `tuned_log` the only engine call is the
direct compile on that path. -/
theorem c6_cache_decision_witness :
    (optimumRun (okWorld (sampleConfig "m" "ansor" "log.json" "llvm" 10 0 false))
        (JVal.vStr "m")
        (initSt (okWorld
          (sampleConfig "m" "ansor" "log.json" "llvm" 10 0 false)))).st.trace
      = [JobEvent.compileCall "log.json"] := by
  exact (c6_cache_decision
    (okWorld (sampleConfig "m" "ansor" "log.json" "llvm" 10 0 false))
    "m" "log.json" "llvm" 10 0 false rfl rfl).1 (by decide)

theorem ansor_run_tuning_trace (w : World) (e : AnsorEngine) (st : EngSt) (t v : Int) :
    (ansor_run_tuning w e st t v).1.trace = st.trace ++ [JobEvent.tuneCall t v] ∨
    (ansor_run_tuning w e st t v).1.trace
      = st.trace ++ [JobEvent.tuneCall t v,
          JobEvent.compileCall (insertFinished (tuningLogPath e.networkName e.target))] := by
  cases htune : w.tuneErr with
  | none =>
    right
    simp [ansor_run_tuning, htune, ansor_compile_trace]
  | some m =>
    left
    cases hrec : w.recordCreated <;> simp [ansor_run_tuning, htune, hrec]

theorem ansor_run_tuning_report_other (w : World) (e : AnsorEngine) (st : EngSt)
    (t v : Int) (k : String) (hk : k ≠ "status") :
    dictLookup (ansor_run_tuning w e st t v).1.report k = dictLookup st.report k := by
  cases htune : w.tuneErr with
  | none =>
    cases hbuild : w.buildErr <;>
      simp [ansor_run_tuning, htune, hbuild, ansor_compile_report,
        dictLookup_dictSet_other, hk]
  | some m =>
    cases hrec : w.recordCreated <;> simp [ansor_run_tuning, htune, hrec]

theorem ansor_run_tuning_err_status (w : World) (e : AnsorEngine) (st : EngSt)
    (t v : Int) :
    ((ansor_run_tuning w e st t v).2 = none ∧
      dictLookup (ansor_run_tuning w e st t v).1.report "status"
        = some (JVal.vInt 3)) ∨
    (ansor_run_tuning w e st t v).2 ≠ none := by
  cases htune : w.tuneErr with
  | none =>
    cases hbuild : w.buildErr with
    | none =>
      left
      simp [ansor_run_tuning, htune, hbuild, ansor_compile_err,
        ansor_compile_report, dictLookup_dictSet_same]
    | some m =>
      right
      simp [ansor_run_tuning, htune, hbuild, ansor_compile_err]
  | some m =>
    right
    cases hrec : w.recordCreated <;> simp [ansor_run_tuning, htune, hrec]

theorem optimumRun_trace_engine (w : World) (mn : JVal) (st : EngSt)
    (h0 : st.trace = []) :
    ∀ ev ∈ (optimumRun w mn st).st.trace,
      (∃ t v, ev = JobEvent.tuneCall t v) ∨ (∃ l, ev = JobEvent.compileCall l) := by
  intro ev hmem
  unfold optimumRun at hmem
  cases hlk : optimumLookups st.report with
  | error e =>
    rw [hlk] at hmem
    rw [h0] at hmem
    simp at hmem
  | ok tup =>
    obtain ⟨target, trialsV, mode, tunedLogV, ishape, idtype, verboseV⟩ := tup
    rw [hlk] at hmem
    cases hmode : jEqStr mode "ansor" with
    | false =>
      cases hmode2 : jEqStr mode "autotvm" <;>
        · simp [hmode, hmode2, h0] at hmem
    | true =>
      cases mn with
      | vStr mns =>
        cases hf : w.frontendErr with
        | some m =>
          simp [hmode, hf, h0] at hmem
        | none =>
          cases hlog : jNeStr tunedLogV "" with
          | true =>
            rcases hr : (ansor_compile w st (jvalRender tunedLogV)).2 with _ | er <;>
            · simp [hmode, hf, hlog, hr, ansor_compile_trace, h0] at hmem
              subst hmem
              exact Or.inr ⟨jvalRender tunedLogV, rfl⟩
          | false =>
            have htr := ansor_run_tuning_trace w
                ⟨mns.replace "/" "_", target, ishape, idtype⟩ st
                (jvalAsInt trialsV) (jvalAsInt verboseV)
            rcases hr : (ansor_run_tuning w
                ⟨mns.replace "/" "_", target, ishape, idtype⟩ st
                (jvalAsInt trialsV) (jvalAsInt verboseV)).2 with _ | er <;>
            rcases htr with htr | htr <;>
            · simp [hmode, hf, hlog, hr, htr, h0] at hmem
              first
              | (subst hmem
                 exact Or.inl ⟨jvalAsInt trialsV, jvalAsInt verboseV, rfl⟩)
              | (rcases hmem with rfl | rfl
                 · exact Or.inl ⟨jvalAsInt trialsV, jvalAsInt verboseV, rfl⟩
                 · exact Or.inr ⟨_, rfl⟩)
      | vInt n =>
        simp [hmode, h0] at hmem
      | vBool b =>
        simp [hmode, h0] at hmem
      | vObj o =>
        simp [hmode, h0] at hmem

theorem optimumRun_report_other (w : World) (mn : JVal) (st : EngSt) (k : String)
    (hk : k ≠ "status") :
    dictLookup (optimumRun w mn st).st.report k = dictLookup st.report k := by
  unfold optimumRun
  cases hlk : optimumLookups st.report with
  | error e => rfl
  | ok tup =>
    obtain ⟨target, trialsV, mode, tunedLogV, ishape, idtype, verboseV⟩ := tup
    cases hmode : jEqStr mode "ansor" with
    | false =>
      cases hmode2 : jEqStr mode "autotvm" <;> simp [hmode, hmode2]
    | true =>
      cases mn with
      | vStr mns =>
        cases hf : w.frontendErr with
        | some m => simp [hmode, hf]
        | none =>
          cases hlog : jNeStr tunedLogV "" with
          | true =>
            rcases hr : (ansor_compile w st (jvalRender tunedLogV)).2 with _ | er <;>
              cases hb : w.buildErr <;>
              simp [hmode, hf, hlog, hr, hb, ansor_compile_report,
                dictLookup_dictSet_other, hk]
          | false =>
            rcases hr : (ansor_run_tuning w
                ⟨mns.replace "/" "_", target, ishape, idtype⟩ st
                (jvalAsInt trialsV) (jvalAsInt verboseV)).2 with _ | er <;>
              simp [hmode, hf, hlog, hr, ansor_run_tuning_report_other, hk]
      | vInt n => simp [hmode]
      | vBool b => simp [hmode]
      | vObj o => simp [hmode]

theorem optimumRun_err_status (w : World) (mn : JVal) (st : EngSt) :
    ((optimumRun w mn st).err = none ∧ (optimumRun w mn st).engineSet = true ∧
      dictLookup (optimumRun w mn st).st.report "status" = some (JVal.vInt 3)) ∨
    ((optimumRun w mn st).err ≠ none ∧ (optimumRun w mn st).engineSet = false) := by
  unfold optimumRun
  cases hlk : optimumLookups st.report with
  | error e => right; exact ⟨by simp, rfl⟩
  | ok tup =>
    obtain ⟨target, trialsV, mode, tunedLogV, ishape, idtype, verboseV⟩ := tup
    cases hmode : jEqStr mode "ansor" with
    | false =>
      right
      cases hmode2 : jEqStr mode "autotvm" <;> simp [hmode, hmode2]
    | true =>
      cases mn with
      | vStr mns =>
        cases hf : w.frontendErr with
        | some m => right; simp [hmode, hf]
        | none =>
          cases hlog : jNeStr tunedLogV "" with
          | true =>
            rcases hr : (ansor_compile w st (jvalRender tunedLogV)).2 with _ | er
            · left
              have hbuild : w.buildErr = none := by
                have := ansor_compile_err w st (jvalRender tunedLogV)
                rw [hr] at this
                cases hb : w.buildErr
                · rfl
                · rw [hb] at this
                  exact Option.noConfusion this.symm
              simp [hmode, hf, hlog, hr, ansor_compile_report, hbuild,
                dictLookup_dictSet_same]
            · right
              simp [hmode, hf, hlog, hr]
          | false =>
            rcases hr : (ansor_run_tuning w
                ⟨mns.replace "/" "_", target, ishape, idtype⟩ st
                (jvalAsInt trialsV) (jvalAsInt verboseV)).2 with _ | er
            · left
              have hst := ansor_run_tuning_err_status w
                ⟨mns.replace "/" "_", target, ishape, idtype⟩ st
                (jvalAsInt trialsV) (jvalAsInt verboseV)
              rcases hst with ⟨_, hst3⟩ | hbad
              · simp [hmode, hf, hlog, hr, hst3]
              · exact absurd hr hbad
            · right
              simp [hmode, hf, hlog, hr]
      | vInt n => right; simp [hmode]
      | vBool b => right; simp [hmode]
      | vObj o => right; simp [hmode]

theorem innerStage_eq (w : World) (modelName mode tunedLog target : String)
    (trials verbose : Int) (needBench : Bool)
    (hcfg : w.config = sampleConfig modelName mode tunedLog target trials verbose needBench) :
    innerStage w = ⟨(optimumRun w (JVal.vStr modelName) (initSt w)).st,
                    (optimumRun w (JVal.vStr modelName) (initSt w)).err,
                    true,
                    (optimumRun w (JVal.vStr modelName) (initSt w)).engineSet⟩ := by
  unfold innerStage
  have hmn : dictGetE (initSt w).report "model_name"
      = Except.ok (JVal.vStr modelName) := by
    simp [initSt, initialReport, hcfg, sampleConfig, dictSet, dictGetE, dictLookup]
  simp only [hmn]

theorem filter_isSave_nil (tr : List JobEvent)
    (h : ∀ ev ∈ tr, isSave ev = false) : tr.filter isSave = [] := by
  rw [List.filter_eq_nil_iff]
  intro a ha
  simp [h a ha]

theorem filter_isNotify_nil (tr : List JobEvent)
    (h : ∀ ev ∈ tr, isNotify ev = false) : tr.filter isNotify = [] := by
  rw [List.filter_eq_nil_iff]
  intro a ha
  simp [h a ha]

theorem uploadPhase_save (a : CliArgs) (w : World) (st : EngSt) (tr : List JobEvent)
    (r : Dict) (hmem : JobEvent.save r ∈ uploadPhase a w st tr) :
    JobEvent.save r ∈ tr := by
  unfold uploadPhase at hmem
  by_cases henv : a.env = GOOGLESTORAGE
  · rw [if_pos henv] at hmem
    cases hup : w.uploadErr with
    | some m => simpa [hup] using hmem
    | none =>
      cases hsv : dictGetE st.report "status" with
      | error e => simpa [hup, hsv] using hmem
      | ok sv => simpa [hup, hsv] using hmem
  · rwa [if_neg henv] at hmem

theorem uploadPhase_saveCount (a : CliArgs) (w : World) (st : EngSt)
    (tr : List JobEvent) :
    saveCount (uploadPhase a w st tr) = saveCount tr := by
  unfold uploadPhase
  by_cases henv : a.env = GOOGLESTORAGE
  · rw [if_pos henv]
    cases hup : w.uploadErr with
    | some m => simp [saveCount, List.filter_append, isSave]
    | none =>
      cases hsv : dictGetE st.report "status" with
      | error e => simp [saveCount, List.filter_append, isSave]
      | ok sv => simp [saveCount, List.filter_append, isSave]
  · rw [if_neg henv]

theorem uploadPhase_notifyCount (a : CliArgs) (w : World) (st : EngSt)
    (tr : List JobEvent) :
    notifyCount (uploadPhase a w st tr) ≤ notifyCount tr + 1 := by
  unfold uploadPhase
  by_cases henv : a.env = GOOGLESTORAGE
  · rw [if_pos henv]
    cases hup : w.uploadErr with
    | some m => simp [notifyCount, List.filter_append, isNotify]
    | none =>
      cases hsv : dictGetE st.report "status" with
      | error e => simp [notifyCount, List.filter_append, isNotify]
      | ok sv => simp [notifyCount, List.filter_append, isNotify]
  · rw [if_neg henv]
    exact Nat.le_succ_of_le (Nat.le_refl _)
theorem deliver_fail_eq (a : CliArgs) (w : World) (io : InnerOut) (e : PyErr)
    (nbv : JVal)
    (herr : io.err = some e)
    (hopt : io.optBound = true)
    (heng : io.engineSet = false)
    (hnb : dictLookup io.st.report "need_benchmark" = some nbv) :
    deliver a w io
      = io.st.trace ++
        [JobEvent.save (dictSet (dictSet io.st.report "error_info"
            (JVal.vStr (errMsg e))) "status" (JVal.vInt (-1)))] ++
        failTail a w nbv := by
  have hrep : (applyInner io).report
      = dictSet (dictSet io.st.report "error_info" (JVal.vStr (errMsg e)))
          "status" (JVal.vInt (-1)) := by
    unfold applyInner
    rw [herr]
  have htr : (applyInner io).trace = io.st.trace := applyInner_trace io
  have hsv : dictGetE (applyInner io).report "status"
      = Except.ok (JVal.vInt (-1)) := by
    rw [hrep]
    simp [dictGetE, dictLookup_dictSet_same]
  have hnb2 : dictGetE (applyInner io).report "need_benchmark"
      = Except.ok nbv := by
    rw [hrep]
    simp [dictGetE, dictLookup_dictSet_other, hnb]
  unfold deliver failTail uploadTail
  simp only [hsv, hnb2, htr, jEqInt, beq_self_eq_true, eq_self_iff_true, if_true]
  cases ht : truthy nbv with
  | true =>
    simp [ht, hopt, heng, hrep, errMsg]
  | false =>
    simp only [ht, Bool.false_eq_true, if_false]
    unfold uploadPhase
    by_cases henv : a.env = GOOGLESTORAGE
    · simp only [if_pos henv]
      cases hup : w.uploadErr with
      | some m => simp [hrep]
      | none =>
        have hsv2 : dictGetE (dictSet (dictSet io.st.report "error_info"
            (JVal.vStr (errMsg e))) "status" (JVal.vInt (-1))) "status"
            = Except.ok (JVal.vInt (-1)) := by
          simp [dictGetE, dictLookup_dictSet_same]
        simp [hrep, hsv2]
    · simp only [if_neg henv]
      simp [hrep]
theorem deliver_ok_eq (a : CliArgs) (w : World) (io : InnerOut) (nbv : JVal)
    (herr : io.err = none)
    (hopt : io.optBound = true)
    (heng : io.engineSet = true)
    (hstat : dictLookup io.st.report "status" = some (JVal.vInt 3))
    (hnb : dictLookup io.st.report "need_benchmark" = some nbv) :
    deliver a w io
      = io.st.trace ++
        [JobEvent.save (dictSet io.st.report "status" (JVal.vInt 4))] ++
        okTail a w nbv := by
  have hrep : (applyInner io).report = io.st.report := by
    unfold applyInner
    rw [herr]
  have htr : (applyInner io).trace = io.st.trace := applyInner_trace io
  have hsv3 : dictGetE io.st.report "status" = Except.ok (JVal.vInt 3) := by
    simp [dictGetE, hstat]
  have hnb3 : dictGetE (dictSet io.st.report "status" (JVal.vInt 4))
      "need_benchmark" = Except.ok nbv := by
    simp [dictGetE, dictLookup_dictSet_other, hnb]
  have hsv4 : dictGetE (dictSet io.st.report "status" (JVal.vInt 4)) "status"
      = Except.ok (JVal.vInt 4) := by
    simp [dictGetE, dictLookup_dictSet_same]
  unfold deliver okTail uploadTail
  simp only [hrep, htr, hsv3, jEqInt]
  rw [show ((3 : Int) == -1) = false from rfl]
  simp only [Bool.false_eq_true, if_false, hnb3]
  cases ht : truthy nbv with
  | true =>
    simp only [ht, if_true, hopt, heng, Bool.not_true, Bool.false_eq_true, if_false]
    cases hev : w.evalErr with
    | some m => simp
    | none =>
      unfold uploadPhase
      by_cases henv : a.env = GOOGLESTORAGE
      · simp only [if_pos henv]
        cases hup : w.uploadErr with
        | some m => simp
        | none => simp [hsv4]
      · simp only [if_neg henv]
        simp
  | false =>
    simp only [ht, Bool.false_eq_true, if_false]
    unfold uploadPhase
    by_cases henv : a.env = GOOGLESTORAGE
    · simp only [if_pos henv]
      cases hup : w.uploadErr with
      | some m => simp
      | none => simp [hsv4]
    · simp only [if_neg henv]
      simp

theorem engine_trace_excludes (tr : List JobEvent)
    (h : ∀ ev ∈ tr, (∃ t v, ev = JobEvent.tuneCall t v) ∨
      (∃ l, ev = JobEvent.compileCall l)) :
    (∀ r, JobEvent.save r ∉ tr) ∧ (∀ p s, JobEvent.notify p s ∉ tr) ∧
    JobEvent.evalCall ∉ tr ∧ JobEvent.csvWritten ∉ tr ∧
    JobEvent.benchAttempt ∉ tr ∧ JobEvent.uploadDir ∉ tr := by
  refine ⟨?_, ?_, ?_, ?_, ?_, ?_⟩
  · intro r hmem
    rcases h _ hmem with ⟨t, v, heq⟩ | ⟨l, heq⟩ <;> exact JobEvent.noConfusion heq
  · intro p s hmem
    rcases h _ hmem with ⟨t, v, heq⟩ | ⟨l, heq⟩ <;> exact JobEvent.noConfusion heq
  · intro hmem
    rcases h _ hmem with ⟨t, v, heq⟩ | ⟨l, heq⟩ <;> exact JobEvent.noConfusion heq
  · intro hmem
    rcases h _ hmem with ⟨t, v, heq⟩ | ⟨l, heq⟩ <;> exact JobEvent.noConfusion heq
  · intro hmem
    rcases h _ hmem with ⟨t, v, heq⟩ | ⟨l, heq⟩ <;> exact JobEvent.noConfusion heq
  · intro hmem
    rcases h _ hmem with ⟨t, v, heq⟩ | ⟨l, heq⟩ <;> exact JobEvent.noConfusion heq

theorem uploadTail_no_save (a : CliArgs) (w : World) (sv : JVal) :
    (uploadTail a w sv).filter isSave = [] := by
  unfold uploadTail
  by_cases henv : a.env = GOOGLESTORAGE
  · rw [if_pos henv]
    cases w.uploadErr <;> simp [isSave]
  · rw [if_neg henv]
    rfl

theorem failTail_no_save (a : CliArgs) (w : World) (nbv : JVal) :
    (failTail a w nbv).filter isSave = [] := by
  unfold failTail
  cases ht : truthy nbv <;> simp [isSave, uploadTail_no_save]

theorem okTail_no_save (a : CliArgs) (w : World) (nbv : JVal) :
    (okTail a w nbv).filter isSave = [] := by
  unfold okTail
  cases ht : truthy nbv with
  | false => simp [uploadTail_no_save]
  | true =>
    cases hev : w.evalErr <;>
      simp [isSave, List.filter_append, uploadTail_no_save]

theorem uploadTail_notifyCount (a : CliArgs) (w : World) (sv : JVal) :
    notifyCount (uploadTail a w sv) ≤ 1 := by
  unfold uploadTail
  by_cases henv : a.env = GOOGLESTORAGE
  · rw [if_pos henv]
    cases w.uploadErr <;> simp [notifyCount, isNotify]
  · rw [if_neg henv]
    simp [notifyCount]

theorem failTail_notifyCount (a : CliArgs) (w : World) (nbv : JVal) :
    notifyCount (failTail a w nbv) ≤ 1 := by
  unfold failTail
  cases ht : truthy nbv with
  | false => simpa using uploadTail_notifyCount a w (JVal.vInt (-1))
  | true => simp [notifyCount, isNotify]

theorem okTail_notifyCount (a : CliArgs) (w : World) (nbv : JVal) :
    notifyCount (okTail a w nbv) ≤ 1 := by
  unfold okTail
  cases ht : truthy nbv with
  | false => simpa using uploadTail_notifyCount a w (JVal.vInt 4)
  | true =>
    cases hev : w.evalErr with
    | some m => simp [notifyCount, isNotify]
    | none =>
      have := uploadTail_notifyCount a w (JVal.vInt 4)
      simp [notifyCount, List.filter_append, isNotify] at this ⊢
      exact this

theorem uploadTail_no_bench (a : CliArgs) (w : World) (sv : JVal) :
    JobEvent.benchAttempt ∉ uploadTail a w sv ∧
    JobEvent.evalCall ∉ uploadTail a w sv ∧
    JobEvent.csvWritten ∉ uploadTail a w sv := by
  unfold uploadTail
  by_cases henv : a.env = GOOGLESTORAGE
  · rw [if_pos henv]
    refine ⟨?_, ?_, ?_⟩ <;> (cases w.uploadErr <;> simp)
  · rw [if_neg henv]
    refine ⟨?_, ?_, ?_⟩ <;> simp

theorem failTail_mem (a : CliArgs) (w : World) (nbv : JVal) :
    (JobEvent.benchAttempt ∈ failTail a w nbv ↔ truthy nbv = true) ∧
    JobEvent.evalCall ∉ failTail a w nbv ∧
    JobEvent.csvWritten ∉ failTail a w nbv := by
  unfold failTail
  cases ht : truthy nbv with
  | false =>
    have h := uploadTail_no_bench a w (JVal.vInt (-1))
    simp [h.1, h.2.1, h.2.2]
  | true => simp

theorem okTail_mem (a : CliArgs) (w : World) (nbv : JVal) :
    (JobEvent.benchAttempt ∈ okTail a w nbv ↔ truthy nbv = true) ∧
    (JobEvent.evalCall ∈ okTail a w nbv ↔ truthy nbv = true) ∧
    (JobEvent.csvWritten ∈ okTail a w nbv ↔
      (truthy nbv = true ∧ w.evalErr = none)) := by
  unfold okTail
  cases ht : truthy nbv with
  | false =>
    have h := uploadTail_no_bench a w (JVal.vInt 4)
    simp [h.1, h.2.1, h.2.2]
  | true =>
    cases hev : w.evalErr with
    | some m => simp
    | none =>
      have h := uploadTail_no_bench a w (JVal.vInt 4)
      simp [h.1, h.2.1, h.2.2]

theorem okTail_remote_ok (a : CliArgs) (w : World) (nbv : JVal)
    (heval : truthy nbv = false ∨ w.evalErr = none)
    (henv : a.env = GOOGLESTORAGE) (hup : w.uploadErr = none) :
    JobEvent.notify "OK" (jvalRender (JVal.vInt 4)) ∈ okTail a w nbv ∧
    notifyCount (okTail a w nbv) = 1 := by
  unfold okTail uploadTail
  cases ht : truthy nbv with
  | false => simp [henv, hup, notifyCount, isNotify]
  | true =>
    rcases heval with hbad | hev
    · rw [ht] at hbad
      exact Bool.noConfusion hbad
    · simp [hev, henv, hup, notifyCount, List.filter_append, isNotify]

theorem okTail_local (a : CliArgs) (w : World) (nbv : JVal)
    (heval : truthy nbv = false ∨ w.evalErr = none)
    (henv : ¬ a.env = GOOGLESTORAGE) :
    notifyCount (okTail a w nbv) = 0 := by
  unfold okTail uploadTail
  cases ht : truthy nbv with
  | false => simp [henv, notifyCount]
  | true =>
    rcases heval with hbad | hev
    · rw [ht] at hbad
      exact Bool.noConfusion hbad
    · simp [hev, henv, notifyCount, List.filter_append, isNotify]

theorem innerStage_trace_engine (w : World)
    (modelName mode tunedLog target : String) (trials verbose : Int) (needBench : Bool)
    (hcfg : w.config = sampleConfig modelName mode tunedLog target trials verbose needBench) :
    ∀ ev ∈ (innerStage w).st.trace,
      (∃ t v, ev = JobEvent.tuneCall t v) ∨ (∃ l, ev = JobEvent.compileCall l) := by
  rw [innerStage_eq w modelName mode tunedLog target trials verbose needBench hcfg]
  exact optimumRun_trace_engine w (JVal.vStr modelName) (initSt w) rfl

theorem innerStage_nb (w : World)
    (modelName mode tunedLog target : String) (trials verbose : Int) (needBench : Bool)
    (hcfg : w.config = sampleConfig modelName mode tunedLog target trials verbose needBench) :
    dictLookup (innerStage w).st.report "need_benchmark"
      = some (JVal.vBool needBench) := by
  rw [innerStage_eq w modelName mode tunedLog target trials verbose needBench hcfg]
  rw [optimumRun_report_other w (JVal.vStr modelName) (initSt w) "need_benchmark"
    (by decide)]
  simp [initSt, initialReport, hcfg, sampleConfig, dictSet, dictLookup]

theorem innerStage_fields (w : World)
    (modelName mode tunedLog target : String) (trials verbose : Int) (needBench : Bool)
    (hcfg : w.config = sampleConfig modelName mode tunedLog target trials verbose needBench) :
    (innerStage w).optBound = true ∧
    ((innerStage w).err = none →
      (innerStage w).engineSet = true ∧
      dictLookup (innerStage w).st.report "status" = some (JVal.vInt 3)) ∧
    ((innerStage w).err ≠ none → (innerStage w).engineSet = false) := by
  rw [innerStage_eq w modelName mode tunedLog target trials verbose needBench hcfg]
  refine ⟨rfl, ?_, ?_⟩ <;>
  · intro h
    rcases optimumRun_err_status w (JVal.vStr modelName) (initSt w) with
      ⟨h1, h2, h3⟩ | ⟨h1, h2⟩ <;> simp_all

/-- The full observable trace of one job that gets past the pre-report stages,
split by the outcome of the inner boundary. -/
theorem runJob_eq (a : CliArgs) (w : World)
    (modelName mode tunedLog target : String) (trials verbose : Int) (needBench : Bool)
    (hcfg : w.config = sampleConfig modelName mode tunedLog target trials verbose needBench)
    (hpre : preErr a w = none) :
    (∀ e, (innerStage w).err = some e →
      runJob a w = (innerStage w).st.trace ++
        [JobEvent.save (dictSet (dictSet (innerStage w).st.report "error_info"
          (JVal.vStr (errMsg e))) "status" (JVal.vInt (-1)))] ++
        failTail a w (JVal.vBool needBench)) ∧
    ((innerStage w).err = none →
      runJob a w = (innerStage w).st.trace ++
        [JobEvent.save (dictSet (innerStage w).st.report "status" (JVal.vInt 4))] ++
        okTail a w (JVal.vBool needBench)) := by
  have hrun : runJob a w = deliver a w (innerStage w) := by
    unfold runJob
    rw [hpre]
  have hnb := innerStage_nb w modelName mode tunedLog target trials verbose needBench hcfg
  have hfld := innerStage_fields w modelName mode tunedLog target trials verbose needBench hcfg
  constructor
  · intro e herr
    rw [hrun]
    exact deliver_fail_eq a w (innerStage w) e (JVal.vBool needBench) herr hfld.1
      (hfld.2.2 (by rw [herr]; exact fun hc => Option.noConfusion hc)) hnb
  · intro herr
    rw [hrun]
    exact deliver_ok_eq a w (innerStage w) (JVal.vBool needBench) herr hfld.1
      (hfld.2.1 herr).1 (hfld.2.1 herr).2 hnb

/-! ## Claim C5 -/

/-- C5: once the inner boundary has forced `status = -1`, no later stage
overwrites it with a positive code — the promotion to 4 is guarded by
`status != -1` — so the persisted report of a job whose Optimizer stage
failed always carries status −1. -/
theorem c5_sticky_failure (a : CliArgs) (w : World)
    (modelName mode tunedLog target : String) (trials verbose : Int) (needBench : Bool)
    (hcfg : w.config = sampleConfig modelName mode tunedLog target trials verbose needBench)
    (hpre : preErr a w = none)
    (e : PyErr) (herr : (innerStage w).err = some e) :
    ∀ r, JobEvent.save r ∈ runJob a w →
      dictLookup r "status" = some (JVal.vInt (-1)) := by
  intro r hmem
  rw [(runJob_eq a w modelName mode tunedLog target trials verbose needBench
    hcfg hpre).1 e herr] at hmem
  have hexc := engine_trace_excludes (innerStage w).st.trace
    (innerStage_trace_engine w modelName mode tunedLog target trials verbose
      needBench hcfg)
  rcases List.mem_append.mp hmem with h1 | h2
  · rcases List.mem_append.mp h1 with h0 | hsv
    · exact absurd h0 (hexc.1 r)
    · have heq := List.mem_singleton.mp hsv
      injection heq with hr
      subst hr
      exact dictLookup_dictSet_same _ _ _
  · exfalso
    have hin : JobEvent.save r ∈ (failTail a w (JVal.vBool needBench)).filter isSave :=
      List.mem_filter.mpr ⟨h2, rfl⟩
    rw [failTail_no_save] at hin
    simp at hin

/-- C5 witness: an `"autotvm"` job (inner boundary fails with
`NotImplementedError`) persists a report whose status is −1. -/
theorem c5_sticky_failure_witness :
    dictLookup (dictSet (dictSet
        (initialReport (sampleConfig "m" "autotvm" "" "llvm" 10 0 false))
        "error_info" (JVal.vStr (errMsg PyErr.notImplemented)))
        "status" (JVal.vInt (-1))) "status" = some (JVal.vInt (-1)) := by
  exact c5_sticky_failure ⟨0, 7⟩
    (okWorld (sampleConfig "m" "autotvm" "" "llvm" 10 0 false))
    "m" "autotvm" "" "llvm" 10 0 false rfl rfl PyErr.notImplemented rfl _
    (by
      rw [show runJob ⟨0, 7⟩ (okWorld (sampleConfig "m" "autotvm" "" "llvm" 10 0 false))
        = [JobEvent.save (dictSet (dictSet
            (initialReport (sampleConfig "m" "autotvm" "" "llvm" 10 0 false))
            "error_info" (JVal.vStr (errMsg PyErr.notImplemented)))
            "status" (JVal.vInt (-1)))] from rfl]
      exact List.mem_singleton.mpr rfl)

/-! ## Claim C7 -/

/-- C7: any exception escaping `Optimizer.run` is captured by the inner
boundary — `error_info` receives `str(e)` and `status` is forced to −1 — and
the pipeline continues: every job reaching the inner boundary persists the
report exactly once, whether the Optimizer stage succeeded or failed. -/
theorem c7_inner_boundary (a : CliArgs) (w : World)
    (modelName mode tunedLog target : String) (trials verbose : Int) (needBench : Bool)
    (hcfg : w.config = sampleConfig modelName mode tunedLog target trials verbose needBench)
    (hpre : preErr a w = none) :
    saveCount (runJob a w) = 1 ∧
    (∀ e, (innerStage w).err = some e →
      ∀ r, JobEvent.save r ∈ runJob a w →
        dictLookup r "error_info" = some (JVal.vStr (errMsg e)) ∧
        dictLookup r "status" = some (JVal.vInt (-1))) := by
  have hR := runJob_eq a w modelName mode tunedLog target trials verbose needBench
    hcfg hpre
  have heng := innerStage_trace_engine w modelName mode tunedLog target trials
    verbose needBench hcfg
  have hexc := engine_trace_excludes (innerStage w).st.trace heng
  have hpuresave : (innerStage w).st.trace.filter isSave = [] := by
    apply filter_isSave_nil
    intro ev hev
    rcases heng ev hev with ⟨t, v, rfl⟩ | ⟨l, rfl⟩ <;> rfl
  constructor
  · cases herr : (innerStage w).err with
    | some e =>
      rw [hR.1 e herr]
      simp [saveCount, List.filter_append, hpuresave, failTail_no_save, isSave]
    | none =>
      rw [hR.2 herr]
      simp [saveCount, List.filter_append, hpuresave, okTail_no_save, isSave]
  · intro e herr r hmem
    rw [hR.1 e herr] at hmem
    rcases List.mem_append.mp hmem with h1 | h2
    · rcases List.mem_append.mp h1 with h0 | hsv
      · exact absurd h0 (hexc.1 r)
      · have heq := List.mem_singleton.mp hsv
        injection heq with hr
        subst hr
        constructor
        · rw [dictLookup_dictSet_other _ "status" "error_info" _ (by decide)]
          exact dictLookup_dictSet_same _ _ _
        · exact dictLookup_dictSet_same _ _ _
    · exfalso
      have hin : JobEvent.save r ∈ (failTail a w (JVal.vBool needBench)).filter isSave :=
        List.mem_filter.mpr ⟨h2, rfl⟩
      rw [failTail_no_save] at hin
      simp at hin

/-- C7 witness: a fully successful local job persists its report exactly
once. -/
theorem c7_inner_boundary_witness :
    saveCount (runJob ⟨0, 7⟩
      (okWorld (sampleConfig "m" "ansor" "" "llvm" 10 0 false))) = 1 := by
  exact (c7_inner_boundary ⟨0, 7⟩
    (okWorld (sampleConfig "m" "ansor" "" "llvm" 10 0 false))
    "m" "ansor" "" "llvm" 10 0 false rfl rfl).1

/-! ## Claim C3 -/

/-- C3 counterexample: a job whose Optimizer stage failed (engine construction
raised) but whose config requests benchmarking still reaches the benchmark
statement after saving the −1 report: the `optimum.ansor_engine` attribute
access raises and the job ends in the outer boundary's failure notification —
the benchmark step is attempted, not skipped (though `evaluate()` itself never
executes). -/
theorem c3_counterexample :
    runJob ⟨0, 7⟩
        { okWorld (sampleConfig "m" "ansor" "" "llvm" 10 0 true) with
            frontendErr := some "frontend failed" }
      = [JobEvent.save (dictSet (dictSet
            (initialReport (sampleConfig "m" "ansor" "" "llvm" 10 0 true))
            "error_info" (JVal.vStr "frontend failed"))
            "status" (JVal.vInt (-1))),
         JobEvent.benchAttempt,
         JobEvent.notify
           "\x27Optimum\x27 object has no attribute \x27ansor_engine\x27" "-1"] ∧
    JobEvent.benchAttempt ∈ runJob ⟨0, 7⟩
        { okWorld (sampleConfig "m" "ansor" "" "llvm" 10 0 true) with
            frontendErr := some "frontend failed" } ∧
    JobEvent.evalCall ∉ runJob ⟨0, 7⟩
        { okWorld (sampleConfig "m" "ansor" "" "llvm" 10 0 true) with
            frontendErr := some "frontend failed" } := by
  refine ⟨rfl, ?_, ?_⟩
  · rw [show runJob ⟨0, 7⟩
        { okWorld (sampleConfig "m" "ansor" "" "llvm" 10 0 true) with
            frontendErr := some "frontend failed" }
      = [JobEvent.save (dictSet (dictSet
            (initialReport (sampleConfig "m" "ansor" "" "llvm" 10 0 true))
            "error_info" (JVal.vStr "frontend failed"))
            "status" (JVal.vInt (-1))),
         JobEvent.benchAttempt,
         JobEvent.notify
           "\x27Optimum\x27 object has no attribute \x27ansor_engine\x27" "-1"]
      from rfl]
    simp
  · rw [show runJob ⟨0, 7⟩
        { okWorld (sampleConfig "m" "ansor" "" "llvm" 10 0 true) with
            frontendErr := some "frontend failed" }
      = [JobEvent.save (dictSet (dictSet
            (initialReport (sampleConfig "m" "ansor" "" "llvm" 10 0 true))
            "error_info" (JVal.vStr "frontend failed"))
            "status" (JVal.vInt (-1))),
         JobEvent.benchAttempt,
         JobEvent.notify
           "\x27Optimum\x27 object has no attribute \x27ansor_engine\x27" "-1"]
      from rfl]
    simp

/-- C3 (amended): `evaluate()` actually executes iff `need_benchmark` is true
and the Optimizer stage succeeded (the saved status is not −1), and the
benchmark CSV is written only then (and only when the evaluation itself
succeeds); but the benchmark step is *reached* whenever `need_benchmark` is
true regardless of Optimizer success — after a failure the
`optimum.ansor_engine` attribute access raises to the outer boundary instead
of the step being skipped. -/
theorem c3_benchmark_gating (a : CliArgs) (w : World)
    (modelName mode tunedLog target : String) (trials verbose : Int) (needBench : Bool)
    (hcfg : w.config = sampleConfig modelName mode tunedLog target trials verbose needBench)
    (hpre : preErr a w = none) :
    (∀ r, JobEvent.save r ∈ runJob a w →
      ((JobEvent.evalCall ∈ runJob a w) ↔
        (needBench = true ∧ ¬ dictLookup r "status" = some (JVal.vInt (-1))))) ∧
    (needBench = false → JobEvent.csvWritten ∉ runJob a w) ∧
    (JobEvent.csvWritten ∈ runJob a w → JobEvent.evalCall ∈ runJob a w) ∧
    ((JobEvent.benchAttempt ∈ runJob a w) ↔ needBench = true) := by
  have hR := runJob_eq a w modelName mode tunedLog target trials verbose needBench
    hcfg hpre
  have heng := innerStage_trace_engine w modelName mode tunedLog target trials
    verbose needBench hcfg
  have hexc := engine_trace_excludes (innerStage w).st.trace heng
  have htruthy : truthy (JVal.vBool needBench) = needBench := rfl
  cases herr : (innerStage w).err with
  | some e =>
    rw [hR.1 e herr]
    have hfm := failTail_mem a w (JVal.vBool needBench)
    refine ⟨?_, ?_, ?_, ?_⟩
    · intro r hmem
      have hr : r = dictSet (dictSet (innerStage w).st.report "error_info"
          (JVal.vStr (errMsg e))) "status" (JVal.vInt (-1)) := by
        rcases List.mem_append.mp hmem with h1 | h2
        · rcases List.mem_append.mp h1 with h0 | hsv
          · exact absurd h0 (hexc.1 r)
          · have heq := List.mem_singleton.mp hsv
            injection heq
        · exfalso
          have hin : JobEvent.save r ∈
              (failTail a w (JVal.vBool needBench)).filter isSave :=
            List.mem_filter.mpr ⟨h2, rfl⟩
          rw [failTail_no_save] at hin
          simp at hin
      subst hr
      constructor
      · intro hev
        exfalso
        rcases List.mem_append.mp hev with h1 | h2
        · rcases List.mem_append.mp h1 with h0 | hsv
          · exact hexc.2.2.1 h0
          · simp at hsv
        · exact hfm.2.1 h2
      · rintro ⟨hnb, hst⟩
        exact absurd (dictLookup_dictSet_same _ _ _) hst
    · intro hnb hcsv
      rcases List.mem_append.mp hcsv with h1 | h2
      · rcases List.mem_append.mp h1 with h0 | hsv
        · exact hexc.2.2.2.1 h0
        · simp at hsv
      · exact hfm.2.2 h2
    · intro hcsv
      exfalso
      rcases List.mem_append.mp hcsv with h1 | h2
      · rcases List.mem_append.mp h1 with h0 | hsv
        · exact hexc.2.2.2.1 h0
        · simp at hsv
      · exact hfm.2.2 h2
    · constructor
      · intro hb
        rcases List.mem_append.mp hb with h1 | h2
        · rcases List.mem_append.mp h1 with h0 | hsv
          · exact absurd h0 hexc.2.2.2.2.1
          · simp at hsv
        · rw [← htruthy]
          exact (hfm.1).mp h2
      · intro hnb
        apply List.mem_append.mpr
        right
        apply (hfm.1).mpr
        rw [htruthy, hnb]
  | none =>
    rw [hR.2 herr]
    have hom := okTail_mem a w (JVal.vBool needBench)
    refine ⟨?_, ?_, ?_, ?_⟩
    · intro r hmem
      have hr : r = dictSet (innerStage w).st.report "status" (JVal.vInt 4) := by
        rcases List.mem_append.mp hmem with h1 | h2
        · rcases List.mem_append.mp h1 with h0 | hsv
          · exact absurd h0 (hexc.1 r)
          · have heq := List.mem_singleton.mp hsv
            injection heq
        · exfalso
          have hin : JobEvent.save r ∈
              (okTail a w (JVal.vBool needBench)).filter isSave :=
            List.mem_filter.mpr ⟨h2, rfl⟩
          rw [okTail_no_save] at hin
          simp at hin
      subst hr
      constructor
      · intro hev
        have h2 : JobEvent.evalCall ∈ okTail a w (JVal.vBool needBench) := by
          rcases List.mem_append.mp hev with h1 | h2
          · rcases List.mem_append.mp h1 with h0 | hsv
            · exact absurd h0 hexc.2.2.1
            · simp at hsv
          · exact h2
        refine ⟨by rw [← htruthy]; exact (hom.2.1).mp h2, ?_⟩
        rw [dictLookup_dictSet_same]
        simp
      · rintro ⟨hnb, _⟩
        exact List.mem_append.mpr (Or.inr ((hom.2.1).mpr (by rw [htruthy, hnb])))
    · intro hnb hcsv
      have h2 : JobEvent.csvWritten ∈ okTail a w (JVal.vBool needBench) := by
        rcases List.mem_append.mp hcsv with h1 | h2
        · rcases List.mem_append.mp h1 with h0 | hsv
          · exact absurd h0 hexc.2.2.2.1
          · simp at hsv
        · exact h2
      have := (hom.2.2).mp h2
      rw [htruthy, hnb] at this
      exact Bool.noConfusion this.1
    · intro hcsv
      have h2 : JobEvent.csvWritten ∈ okTail a w (JVal.vBool needBench) := by
        rcases List.mem_append.mp hcsv with h1 | h2
        · rcases List.mem_append.mp h1 with h0 | hsv
          · exact absurd h0 hexc.2.2.2.1
          · simp at hsv
        · exact h2
      have hcond := (hom.2.2).mp h2
      exact List.mem_append.mpr (Or.inr ((hom.2.1).mpr hcond.1))
    · constructor
      · intro hb
        rcases List.mem_append.mp hb with h1 | h2
        · rcases List.mem_append.mp h1 with h0 | hsv
          · exact absurd h0 hexc.2.2.2.2.1
          · simp at hsv
        · rw [← htruthy]
          exact (hom.1).mp h2
      · intro hnb
        apply List.mem_append.mpr
        right
        apply (hom.1).mpr
        rw [htruthy, hnb]

/-- C3 witness: with `need_benchmark = false` on a fully successful local job,
the benchmark statement is never reached. -/
theorem c3_benchmark_gating_witness :
    JobEvent.benchAttempt ∉ runJob ⟨0, 7⟩
      (okWorld (sampleConfig "m" "ansor" "" "llvm" 10 0 false)) := by
  intro hb
  have h := (c3_benchmark_gating ⟨0, 7⟩
    (okWorld (sampleConfig "m" "ansor" "" "llvm" 10 0 false))
    "m" "ansor" "" "llvm" 10 0 false rfl rfl).2.2.2.mp hb
  exact Bool.noConfusion h

/-! ## Claim C8 -/

/-- C8 counterexample: a fully successful job run in local (non-GOOGLESTORAGE)
mode persists its report but publishes zero notifications — refuting "every
job run emits exactly one terminal notification". -/
theorem c8_counterexample :
    saveCount (runJob ⟨0, 7⟩
      (okWorld (sampleConfig "m" "ansor" "" "llvm" 10 0 false))) = 1 ∧
    notifyCount (runJob ⟨0, 7⟩
      (okWorld (sampleConfig "m" "ansor" "" "llvm" 10 0 false))) = 0 ∧
    ¬ notifyCount (runJob ⟨0, 7⟩
      (okWorld (sampleConfig "m" "ansor" "" "llvm" 10 0 false))) = 1 := by
  refine ⟨rfl, rfl, ?_⟩
  intro hc
  rw [show notifyCount (runJob ⟨0, 7⟩
      (okWorld (sampleConfig "m" "ansor" "" "llvm" 10 0 false))) = 0 from rfl] at hc
  exact Nat.noConfusion hc

/-- C8 (amended): a job run emits at most one terminal notification. If an
exception occurs before the report object exists (download, config load,
conversion), the whole trace is the single failure notification carrying the
exception's message and status string "-1", with no report persisted or
uploaded. A run that completes all stages publishes exactly one notification,
with payload "OK" and the final numeric status, when env is GOOGLESTORAGE —
and publishes no notification at all in local mode. -/
theorem c8_notifications (a : CliArgs) (w : World)
    (modelName mode tunedLog target : String) (trials verbose : Int) (needBench : Bool)
    (hcfg : w.config = sampleConfig modelName mode tunedLog target trials verbose needBench) :
    notifyCount (runJob a w) ≤ 1 ∧
    (∀ m, preErr a w = some m → runJob a w = [JobEvent.notify m "-1"]) ∧
    (preErr a w = none → (innerStage w).err = none →
      (needBench = false ∨ w.evalErr = none) → w.uploadErr = none →
      a.env = GOOGLESTORAGE →
      notifyCount (runJob a w) = 1 ∧
      JobEvent.notify "OK" (jvalRender (JVal.vInt 4)) ∈ runJob a w) ∧
    (preErr a w = none → (innerStage w).err = none →
      (needBench = false ∨ w.evalErr = none) → ¬ a.env = GOOGLESTORAGE →
      notifyCount (runJob a w) = 0) := by
  have heng := innerStage_trace_engine w modelName mode tunedLog target trials
    verbose needBench hcfg
  have hpuren : (innerStage w).st.trace.filter isNotify = [] := by
    apply filter_isNotify_nil
    intro ev hev
    rcases heng ev hev with ⟨t, v, rfl⟩ | ⟨l, rfl⟩ <;> rfl
  refine ⟨?_, ?_, ?_, ?_⟩
  · cases hp : preErr a w with
    | some m =>
      unfold runJob
      rw [hp]
      simp [notifyCount, isNotify]
    | none =>
      have hR := runJob_eq a w modelName mode tunedLog target trials verbose
        needBench hcfg hp
      cases herr : (innerStage w).err with
      | some e =>
        rw [hR.1 e herr]
        have hle := failTail_notifyCount a w (JVal.vBool needBench)
        simp [notifyCount, List.filter_append, hpuren, isNotify] at hle ⊢
        exact hle
      | none =>
        rw [hR.2 herr]
        have hle := okTail_notifyCount a w (JVal.vBool needBench)
        simp [notifyCount, List.filter_append, hpuren, isNotify] at hle ⊢
        exact hle
  · intro m hp
    unfold runJob
    rw [hp]
  · intro hp herr heval hup henv
    have hR := runJob_eq a w modelName mode tunedLog target trials verbose
      needBench hcfg hp
    rw [hR.2 herr]
    have heval2 : truthy (JVal.vBool needBench) = false ∨ w.evalErr = none := by
      rcases heval with h | h
      · left
        rw [h]
        rfl
      · right
        exact h
    have hok := okTail_remote_ok a w (JVal.vBool needBench) heval2 henv hup
    constructor
    · have h2 := hok.2
      simp [notifyCount, List.filter_append, hpuren, isNotify] at h2 ⊢
      exact h2
    · exact List.mem_append.mpr (Or.inr hok.1)
  · intro hp herr heval henv
    have hR := runJob_eq a w modelName mode tunedLog target trials verbose
      needBench hcfg hp
    rw [hR.2 herr]
    have heval2 : truthy (JVal.vBool needBench) = false ∨ w.evalErr = none := by
      rcases heval with h | h
      · left
        rw [h]
        rfl
      · right
        exact h
    have h0 := okTail_local a w (JVal.vBool needBench) heval2 henv
    simp [notifyCount, List.filter_append, hpuren, isNotify] at h0 ⊢
    exact h0

/-- C8 witness: a fully successful remote-mode job publishes exactly one
notification, the `("OK", "4")` one. -/
theorem c8_notifications_witness :
    notifyCount (runJob ⟨1, 7⟩
      (okWorld (sampleConfig "m" "ansor" "" "llvm" 10 0 false))) = 1 := by
  exact ((c8_notifications ⟨1, 7⟩
    (okWorld (sampleConfig "m" "ansor" "" "llvm" 10 0 false))
    "m" "ansor" "" "llvm" 10 0 false rfl).2.2.1 rfl rfl (Or.inl rfl) rfl rfl).1
